import Mathlib

/-!
Verification of the frank-energie-slim integration: a shallow embedding of
the GraphQL API client (custom_components/frank_energie_slim/api.py) and of
the polling coordinator and presentation sensors
(custom_components/frank_energie_slim/sensor.py), together with theorems
settling the behavioural claims about authentication, error classification,
defensive response parsing and date serialization.

Conventions of the embedding:
- JSON values (the result of resp.json()) are the inductive type Json below.
  The Python object None and the JSON value null are the same object in the
  source (json.loads maps null to None), so Json.null stands for both.
- Raised Python exceptions are the error side of Except PyErr.  The source
  raises bare Exception values with a message; the spec taxonomy maps the
  message "Authentication required" to AuthenticationError and the
  requests.HTTPError raised by Response.raise_for_status to TransportError.
- The network is an oracle: query-like operations take the HttpResponse the
  transport would have produced; the request-building phase is exposed
  separately so that claims about "no network call" and request headers can
  be stated (an operation that errors before producing a Request never
  reaches requests.post).
-/

/-- JSON values as parsed by resp.json().  Objects keep their fields as an
association list; responses produced by a JSON parser have unique keys and
lookup takes the first binding.  Numbers carry an Int payload; the source
never computes with the numeric values, it only extracts and compares them
to None, so the payload type is immaterial to every claim. -/
inductive Json where
  | null
  | bool (b : Bool)
  | num (n : Int)
  | str (s : String)
  | arr (xs : List Json)
  | obj (fields : List (String × Json))

/-- Python truthiness (bool(x)) of a JSON value: None, False, 0, empty
string, empty list and empty dict are falsy, everything else is truthy. -/
def Json.truthy : Json → Bool
  | .null => false
  | .bool b => b
  | .num n => !(n == 0)
  | .str s => !(s == "")
  | .arr xs => !xs.isEmpty
  | .obj fs => !fs.isEmpty

/-- isinstance(x, dict). -/
def Json.isObj : Json → Bool
  | .obj _ => true
  | _ => false

/-- Field lookup on an object, none when the value is not an object or the
key is absent.  Used in theorem statements to speak about response shapes. -/
def Json.lookupField : Json → String → Option Json
  | .obj fs, k => fs.lookup k
  | _, _ => none

/-- Exceptions raised by the embedded code.  httpError is the
requests.HTTPError from Response.raise_for_status (the TransportError of the
spec taxonomy); exn is a bare Exception carrying its argument; attrError
stands for the AttributeError / TypeError / KeyError / IndexError raised by
the dynamic typing of the source when a value has an unexpected shape. -/
inductive PyErr where
  | httpError (status : Nat)
  | exn (arg : Json)
  | attrError

/-- Python x or y: the first operand when it is truthy, else the second. -/
def pyOr (a b : Json) : Json := if a.truthy then a else b

/-- d.get(k): the value bound to k, None when the key is absent, and
AttributeError when the receiver is not a dict (including None.get). -/
def pyGet : Json → String → Except PyErr Json
  | .obj fs, k => .ok ((fs.lookup k).getD Json.null)
  | _, _ => .error .attrError

/-- d.get(k, default): as pyGet but with an explicit default for an absent
key. -/
def pyGetD : Json → String → Json → Except PyErr Json
  | .obj fs, k, dflt => .ok ((fs.lookup k).getD dflt)
  | _, _, _ => .error .attrError

/-- d[k] with a string key: KeyError on a dict without the key, TypeError on
receivers that do not support string subscripts; both folded into
attrError. -/
def pySubscript : Json → String → Except PyErr Json
  | .obj fs, k =>
    match fs.lookup k with
    | some v => .ok v
    | none => .error .attrError
  | _, _ => .error .attrError

/-- xs[0]: the first element of a list, the first character of a string,
IndexError / TypeError otherwise. -/
def pyIndex0 : Json → Except PyErr Json
  | .arr xs =>
    match xs.head? with
    | some v => .ok v
    | none => .error .attrError
  | .str s =>
    match s.data.head? with
    | some c => .ok (.str (String.mk [c]))
    | none => .error .attrError
  | _ => .error .attrError

/-- xs[-1]: the last element of a list, the last character of a string,
IndexError / TypeError otherwise. -/
def pyIndexLast : Json → Except PyErr Json
  | .arr xs =>
    match xs.getLast? with
    | some v => .ok v
    | none => .error .attrError
  | .str s =>
    match s.data.getLast? with
    | some c => .ok (.str (String.mk [c]))
    | none => .error .attrError
  | _ => .error .attrError

/-- Auxiliary for substring search: whether the first list starts the
second. -/
def hasPfx : List Char → List Char → Bool
  | [], _ => true
  | _ :: _, [] => false
  | a :: as, b :: bs => a == b && hasPfx as bs

/-- Auxiliary for substring search: whether the first list occurs
contiguously in the second. -/
def hasSub (sub : List Char) : List Char → Bool
  | [] => sub.isEmpty
  | l@(_ :: rest) => hasPfx sub l || hasSub sub rest

/-- k in x for a string k: key membership on a dict, substring test on a
string, elementwise equality on a list (a string compares equal only to an
equal string), TypeError on the remaining shapes, which are not iterable. -/
def pyContains : Json → String → Except PyErr Bool
  | .obj fs, k => .ok (fs.lookup k).isSome
  | .str s, k => .ok (hasSub k.data s.data)
  | .arr xs, k =>
    .ok (xs.any fun j =>
      match j with
      | .str s => s == k
      | _ => false)
  | _, _ => .error .attrError

/-- str(x) as used by the f-string building the Authorization header.  The
token is a string in every reachable state; the placeholder on arr and obj
stands for the repr text Python would produce there, which no claim
inspects. -/
def pyStr : Json → String
  | .str s => s
  | .null => "None"
  | .bool true => "True"
  | .bool false => "False"
  | .num n => toString n
  | .arr _ => "<list>"
  | .obj _ => "<dict>"

/-- The state of the FrankEnergie client: the stored credential self.auth,
with Json.null standing for Python None. -/
structure FrankEnergie where
  auth : Json

/-- The fixed endpoint DATA_URL of the client. -/
def FrankEnergie.DATA_URL : String := "https://frank-graphql-prod.graphcdn.app/"

/-- FrankEnergie.__init__(auth_token, refresh_token): the credential dict is
built whenever either argument is truthy, otherwise auth is None. -/
def FrankEnergie.init (auth_token refresh_token : Json) : FrankEnergie :=
  { auth :=
      if auth_token.truthy || refresh_token.truthy then
        Json.obj [("authToken", auth_token), ("refreshToken", refresh_token)]
      else Json.null }

/-- The two headers sent on every request. -/
def baseHeaders : List (String × String) :=
  [("Content-Type", "application/json"), ("User-Agent", "Python/FrankV1")]

/-- FrankEnergie._headers: the base headers, plus Authorization Bearer when
a truthy credential holds a truthy authToken (or legacy auth_token). -/
def FrankEnergie._headers (c : FrankEnergie) : Except PyErr (List (String × String)) := do
  if c.auth.truthy then
    let t1 ← pyGet c.auth "authToken"
    let t2 ← pyGet c.auth "auth_token"
    let token := pyOr t1 t2
    if token.truthy then
      return baseHeaders ++ [("Authorization", "Bearer " ++ pyStr token)]
    else
      return baseHeaders
  else
    return baseHeaders

/-- The HTTP exchange seen by query(): the response status code and its
parsed JSON body. -/
structure HttpResponse where
  statusCode : Nat
  body : Json

/-- The request handed to requests.post: URL, JSON payload and headers. -/
structure Request where
  url : String
  payloadJson : Json
  headers : List (String × String)

/-- requests.Response.raise_for_status raises HTTPError exactly for 4xx
client errors and 5xx server errors. -/
def raiseForStatus (status : Nat) : Bool :=
  decide (400 ≤ status ∧ status < 600)

/-- The sentinel GraphQL error message that query() classifies as an
authentication failure. -/
def authSentinel : String := "user-error:auth-not-authorised"

/-- The scan of the GraphQL errors list inside query(): for each entry err,
err.get("message") is compared with the sentinel; a match raises
Exception("Authentication required"); a non-dict entry raises
AttributeError at the .get call. -/
def scanGraphqlErrors : List Json → Except PyErr Unit
  | [] => .ok ()
  | e :: rest => do
    let msg ← pyGet e "message"
    match msg with
    | .str s =>
      if s == authSentinel then
        .error (.exn (.str "Authentication required"))
      else
        scanGraphqlErrors rest
    | _ => scanGraphqlErrors rest

/-- The request-building phase of query(): requests.post evaluates
self._headers() before any bytes are sent, so a headers failure aborts the
call without a network exchange. -/
def FrankEnergie.buildRequest (c : FrankEnergie) (payload : Json) : Except PyErr Request := do
  let hs ← c._headers
  return { url := FrankEnergie.DATA_URL, payloadJson := payload, headers := hs }

/-- The response-handling phase of query(): raise_for_status first, then,
when the body is a dict with an errors key, the sentinel scan of
data.get("errors") or []; iterating a truthy non-list errors value raises
at the first element.  Non-sentinel errors are only logged and the body is
returned unchanged. -/
def handleResponse (resp : HttpResponse) : Except PyErr Json := do
  if raiseForStatus resp.statusCode then
    .error (.httpError resp.statusCode)
  else
    let data := resp.body
    match data with
    | Json.obj fs =>
      if (fs.lookup "errors").isSome then
        match pyOr ((fs.lookup "errors").getD Json.null) (Json.arr []) with
        | Json.arr es => do
          scanGraphqlErrors es
          return data
        | _ => .error .attrError
      else
        return data
    | _ => return data

/-- FrankEnergie.query(query_data): build the request (headers first), send
it, classify the response. -/
def FrankEnergie.query (c : FrankEnergie) (payload : Json) (resp : HttpResponse) :
    Except PyErr Json := do
  let _ ← c.buildRequest payload
  handleResponse resp

/-- The GraphQL text of the Login mutation. -/
def loginQueryText : String :=
  "mutation Login($email: String!, $password: String!) \x7b login(email: $email, password: $password) \x7b authToken refreshToken \x7d \x7d"

/-- The payload of the Login mutation. -/
def FrankEnergie.loginPayload (username password : String) : Json :=
  Json.obj
    [("query", Json.str loginQueryText),
     ("operationName", Json.str "Login"),
     ("variables", Json.obj [("email", Json.str username), ("password", Json.str password)])]

/-- The validation part of FrankEnergie.login on the parsed body: the
condition not data or "data" not in data or not data["data"].get("login"),
then the error raise surfacing the first reported message (default "Login
failed") or "Login failed: empty response"; on the success path the login
node data["data"]["login"] is produced. -/
def FrankEnergie.loginCheck (data : Json) : Except PyErr Json := do
  let failed ←
    if !data.truthy then
      pure true
    else do
      let hasData ← pyContains data "data"
      if !hasData then
        pure true
      else do
        let dv ← pySubscript data "data"
        let ln ← pyGet dv "login"
        pure (!ln.truthy)
  if failed then
    if data.truthy then do
      let errs ← pyGet data "errors"
      if errs.truthy then do
        let first ← pyIndex0 errs
        let msg ← pyGetD first "message" (Json.str "Login failed")
        .error (.exn msg)
      else
        .error (.exn (Json.str "Login failed: empty response"))
    else
      .error (.exn (Json.str "Login failed: empty response"))
  else do
    let dv ← pySubscript data "data"
    pySubscript dv "login"

/-- FrankEnergie.login(username, password): runs query, validates the body;
on success self.auth is replaced entirely by the login node, which is also
returned; on any raise the stored credential is untouched.  The result pair
is the post-call client state together with the returned value or the
raised exception. -/
def FrankEnergie.login (c : FrankEnergie) (username password : String) (resp : HttpResponse) :
    FrankEnergie × Except PyErr Json :=
  match (do
      let data ← c.query (FrankEnergie.loginPayload username password) resp
      FrankEnergie.loginCheck data : Except PyErr Json) with
  | .error e => (c, .error e)
  | .ok node => ({ auth := node }, .ok node)

/-- The GraphQL text of the SmartBatteries query. -/
def smartBatteriesQueryText : String :=
  "query SmartBatteries \x7b smartBatteries \x7b id \x7d \x7d"

/-- The payload of the SmartBatteries query. -/
def smartBatteriesPayload : Json :=
  Json.obj
    [("query", Json.str smartBatteriesQueryText),
     ("operationName", Json.str "SmartBatteries")]

/-- The error raised by the local pre-check of every read operation. -/
def authRequiredError : PyErr := .exn (.str "Authentication required")

/-- The pre-network phase of FrankEnergie.get_smart_batteries: raise when
not self.auth, else the request that reaches requests.post. -/
def FrankEnergie.get_smart_batteries_request (c : FrankEnergie) : Except PyErr Request := do
  if !c.auth.truthy then
    .error authRequiredError
  else
    c.buildRequest smartBatteriesPayload

/-- FrankEnergie.get_smart_batteries with the network oracle. -/
def FrankEnergie.get_smart_batteries (c : FrankEnergie) (resp : HttpResponse) :
    Except PyErr Json := do
  let _ ← c.get_smart_batteries_request
  handleResponse resp

/-- The GraphQL text of the SmartBatterySummary query. -/
def smartBatterySummaryQueryText : String :=
  "query SmartBatterySummary($deviceId: String!) \x7b smartBatterySummary(deviceId: $deviceId) \x7b lastKnownStateOfCharge lastKnownStatus lastUpdate totalResult \x7d \x7d"

/-- The payload of the SmartBatterySummary query. -/
def smartBatterySummaryPayload (device_id : String) : Json :=
  Json.obj
    [("query", Json.str smartBatterySummaryQueryText),
     ("operationName", Json.str "SmartBatterySummary"),
     ("variables", Json.obj [("deviceId", Json.str device_id)])]

/-- The pre-network phase of FrankEnergie.get_smart_battery_summary. -/
def FrankEnergie.get_smart_battery_summary_request (c : FrankEnergie) (device_id : String) :
    Except PyErr Request := do
  if !c.auth.truthy then
    .error authRequiredError
  else
    c.buildRequest (smartBatterySummaryPayload device_id)

/-- FrankEnergie.get_smart_battery_summary with the network oracle. -/
def FrankEnergie.get_smart_battery_summary (c : FrankEnergie) (device_id : String)
    (resp : HttpResponse) : Except PyErr Json := do
  let _ ← c.get_smart_battery_summary_request device_id
  handleResponse resp

/-- The GraphQL text of the SmartBattery detail query. -/
def smartBatteryQueryText : String :=
  "query SmartBattery($deviceId: String!) \x7b smartBattery(deviceId: $deviceId) \x7b brand capacity id settings \x7b batteryMode imbalanceTradingStrategy selfConsumptionTradingAllowed \x7d \x7d \x7d"

/-- The payload of the SmartBattery detail query. -/
def smartBatteryPayload (device_id : String) : Json :=
  Json.obj
    [("query", Json.str smartBatteryQueryText),
     ("operationName", Json.str "SmartBattery"),
     ("variables", Json.obj [("deviceId", Json.str device_id)])]

/-- The pre-network phase of FrankEnergie.get_smart_battery. -/
def FrankEnergie.get_smart_battery_request (c : FrankEnergie) (device_id : String) :
    Except PyErr Request := do
  if !c.auth.truthy then
    .error authRequiredError
  else
    c.buildRequest (smartBatteryPayload device_id)

/-- FrankEnergie.get_smart_battery with the network oracle. -/
def FrankEnergie.get_smart_battery (c : FrankEnergie) (device_id : String)
    (resp : HttpResponse) : Except PyErr Json := do
  let _ ← c.get_smart_battery_request device_id
  handleResponse resp

/-- A calendar date as held by datetime: year in 1..9999, month in 1..12,
day in 1..31. -/
structure Date where
  year : Nat
  month : Nat
  day : Nat

/-- The range datetime guarantees for its date components. -/
def validDate (d : Date) : Prop :=
  1 ≤ d.year ∧ d.year ≤ 9999 ∧ 1 ≤ d.month ∧ d.month ≤ 12 ∧ 1 ≤ d.day ∧ d.day ≤ 31

instance (d : Date) : Decidable (validDate d) := by
  unfold validDate; infer_instance

/-- The decimal digit characters used by strftime; arguments are always
reduced mod 10 by the callers, so the final case is unreachable. -/
def digitChar : Nat → Char
  | 0 => '0'
  | 1 => '1'
  | 2 => '2'
  | 3 => '3'
  | 4 => '4'
  | 5 => '5'
  | 6 => '6'
  | 7 => '7'
  | 8 => '8'
  | 9 => '9'
  | _ => '*'

/-- d.strftime("%Y-%m-%d"): the zero-padded four-digit year, two-digit month
and two-digit day joined by dashes, as datetime renders every date in its
valid range. -/
def Date.strftimeYmd (d : Date) : String :=
  String.mk
    [digitChar (d.year / 1000 % 10), digitChar (d.year / 100 % 10),
     digitChar (d.year / 10 % 10), digitChar (d.year % 10), '-',
     digitChar (d.month / 10 % 10), digitChar (d.month % 10), '-',
     digitChar (d.day / 10 % 10), digitChar (d.day % 10)]

/-- Whether a string has the shape YYYY-MM-DD: ten characters, digits in the
date positions and dashes at positions four and seven. -/
def isYmdForm (s : String) : Bool :=
  match s.data with
  | [y1, y2, y3, y4, h1, m1, m2, h2, d1, d2] =>
    y1.isDigit && y2.isDigit && y3.isDigit && y4.isDigit &&
    h1 == '-' && m1.isDigit && m2.isDigit && h2 == '-' && d1.isDigit && d2.isDigit
  | _ => false

/-- The numeric value of a digit character. -/
def digitVal (c : Char) : Nat := c.toNat - 48

/-- Parsing a YYYY-MM-DD string back into its date components; none when the
string is not of that shape. -/
def parseYmd (s : String) : Option Date :=
  match s.data with
  | [y1, y2, y3, y4, h1, m1, m2, h2, d1, d2] =>
    if (y1.isDigit && y2.isDigit && y3.isDigit && y4.isDigit &&
        h1 == '-' && m1.isDigit && m2.isDigit && h2 == '-' && d1.isDigit && d2.isDigit) then
      some
        { year := 1000 * digitVal y1 + 100 * digitVal y2 + 10 * digitVal y3 + digitVal y4,
          month := 10 * digitVal m1 + digitVal m2,
          day := 10 * digitVal d1 + digitVal d2 }
    else none
  | _ => none

/-- The GraphQL text of the SmartBatterySessions query. -/
def smartBatterySessionsQueryText : String :=
  "query SmartBatterySessions($startDate: String!, $endDate: String!, $deviceId: String!) \x7b smartBatterySessions(startDate: $startDate endDate: $endDate deviceId: $deviceId) \x7b deviceId fairUsePolicyVerified periodStartDate periodEndDate periodEpexResult periodFrankSlim periodImbalanceResult periodTotalResult periodTradeIndex periodTradingResult sessions \x7b cumulativeResult date result status tradeIndex \x7d \x7d \x7d"

/-- The payload of the SmartBatterySessions query, with the start and end
dates serialized by strftime("%Y-%m-%d"). -/
def smartBatterySessionsPayload (device_id : String) (start_date end_date : Date) : Json :=
  Json.obj
    [("query", Json.str smartBatterySessionsQueryText),
     ("operationName", Json.str "SmartBatterySessions"),
     ("variables", Json.obj
       [("deviceId", Json.str device_id),
        ("startDate", Json.str start_date.strftimeYmd),
        ("endDate", Json.str end_date.strftimeYmd)])]

/-- The pre-network phase of FrankEnergie.get_smart_battery_sessions. -/
def FrankEnergie.get_smart_battery_sessions_request (c : FrankEnergie) (device_id : String)
    (start_date end_date : Date) : Except PyErr Request := do
  if !c.auth.truthy then
    .error authRequiredError
  else
    c.buildRequest (smartBatterySessionsPayload device_id start_date end_date)

/-- FrankEnergie.get_smart_battery_sessions with the network oracle. -/
def FrankEnergie.get_smart_battery_sessions (c : FrankEnergie) (device_id : String)
    (start_date end_date : Date) (resp : HttpResponse) : Except PyErr Json := do
  let _ ← c.get_smart_battery_sessions_request device_id start_date end_date
  handleResponse resp

/-- FrankEnergie.is_authenticated: bool of self.auth and (its authToken or
legacy auth_token); the .get calls can raise when a login response stored a
truthy non-dict node, hence the Except result. -/
def FrankEnergie.is_authenticated (c : FrankEnergie) : Except PyErr Bool := do
  if !c.auth.truthy then
    return false
  else
    let t1 ← pyGet c.auth "authToken"
    let t2 ← pyGet c.auth "auth_token"
    return (pyOr t1 t2).truthy

/-- The per-device state of the polling coordinator: the bound device
identifier and the two cached snapshots (Json.null standing for None, the
no-data-yet value of both). -/
structure FrankBatteryCoordinator where
  device_id : String
  summary : Json
  sessions_node : Json

/-- FrankBatteryCoordinator._async_update_data, parsing phase: takes the two
bodies returned by the summary and sessions queries of this tick and yields
the post-call coordinator state paired with the outcome; the ok value
records whether the missing-sessions diagnostic warning was logged.  The
assignment to self.summary happens before the sessions node is examined, so
a later raise leaves the fresh summary in place, as in the source. -/
def FrankBatteryCoordinator._async_update_data (st : FrankBatteryCoordinator)
    (summaryResp sessionsResp : Json) : FrankBatteryCoordinator × Except PyErr Bool :=
  match (do
      let s0 ← pyGet (pyOr summaryResp (Json.obj [])) "data"
      pyGet (pyOr s0 (Json.obj [])) "smartBatterySummary" : Except PyErr Json) with
  | .error e => (st, .error e)
  | .ok summaryVal =>
    let st1 := { st with summary := summaryVal }
    match (do
        let n0 ← pyGet (pyOr sessionsResp (Json.obj [])) "data"
        pyGet (pyOr n0 (Json.obj [])) "smartBatterySessions" : Except PyErr Json) with
    | .error e => (st1, .error e)
    | .ok node =>
      if !node.truthy then
        ({ st1 with sessions_node := Json.null }, .ok true)
      else
        match (do
            let sessions ←
              if node.isObj then do
                let sv ← pyGet node "sessions"
                pure (pyOr sv (Json.arr []))
              else
                pure (Json.arr [])
            let ptr ← pyGet node "periodTradingResult"
            pure (Json.obj [("periodTradingResult", ptr), ("sessions", sessions)])
            : Except PyErr Json) with
        | .error e => (st1, .error e)
        | .ok wnode => ({ st1 with sessions_node := wnode }, .ok false)

/-- The shape of the cached session window the coordinator stores on a
successful tick with a present sessions node. -/
def sessionWindow (periodTradingResult : Json) (sessions : List Json) : Json :=
  Json.obj [("periodTradingResult", periodTradingResult), ("sessions", Json.arr sessions)]

/-- FrankBatteryTradingResultSensor.state: reads the cached session window;
periodTradingResult when it is not None, else the cumulativeResult of the
last session when the session list is non-empty, else None. -/
def FrankBatteryTradingResultSensor.state (st : FrankBatteryCoordinator) :
    Except PyErr Json := do
  let node := pyOr st.sessions_node (Json.obj [])
  let ptr ← pyGet node "periodTradingResult"
  match ptr with
  | Json.null => do
    let sv ← pyGet node "sessions"
    let sessions := pyOr sv (Json.arr [])
    if sessions.truthy then do
      let last ← pyIndexLast sessions
      pyGet last "cumulativeResult"
    else
      return Json.null
  | _ => pySubscript node "periodTradingResult"

/-- The error message expected by the login failure path for a dict body
with the given fields: the first reported error message (default "Login
failed") when a non-empty errors list is present, else the generic empty
response message. -/
def expectedLoginFailure (fs : List (String × Json)) : Json :=
  if fs.isEmpty then
    Json.str "Login failed: empty response"
  else
    match fs.lookup "errors" with
    | some (Json.arr (e :: _)) =>
      match e with
      | Json.obj efs => (efs.lookup "message").getD (Json.str "Login failed")
      | _ => Json.str "Login failed"
    | _ => Json.str "Login failed: empty response"

@[simp] theorem exBindOk (a : α) (f : α → Except PyErr β) :
    (Except.ok a : Except PyErr α) >>= f = f a := rfl

@[simp] theorem exBindErr (e : PyErr) (f : α → Except PyErr β) :
    (Except.error e : Except PyErr α) >>= f = .error e := rfl

@[simp] theorem exPure (a : α) : (pure a : Except PyErr α) = .ok a := rfl

@[simp] theorem truthy_null : Json.truthy Json.null = false := rfl
@[simp] theorem truthy_bool (b : Bool) : Json.truthy (Json.bool b) = b := rfl
@[simp] theorem truthy_num (n : Int) : Json.truthy (Json.num n) = !(n == 0) := rfl
@[simp] theorem truthy_str (s : String) : Json.truthy (Json.str s) = !(s == "") := rfl
@[simp] theorem truthy_arr (xs : List Json) : Json.truthy (Json.arr xs) = !xs.isEmpty := rfl
@[simp] theorem truthy_obj (fs : List (String × Json)) : Json.truthy (Json.obj fs) = !fs.isEmpty := rfl

@[simp] theorem pyGet_obj (fs : List (String × Json)) (k : String) :
    pyGet (Json.obj fs) k = .ok ((fs.lookup k).getD Json.null) := rfl

/-- Helper: the headers of a freshly constructed client never raise, and they
carry a bearer Authorization entry exactly when the auth token argument is
truthy. -/
theorem headers_init_eq (a r : Json) :
    (FrankEnergie.init a r)._headers =
      .ok (if a.truthy then baseHeaders ++ [("Authorization", "Bearer " ++ pyStr a)]
           else baseHeaders) := by
  unfold FrankEnergie.init FrankEnergie._headers
  by_cases ha : a.truthy <;> by_cases hr : r.truthy <;>
    simp [ha, hr, pyOr, List.lookup]

/-- Helper: the GraphQL error scan raises the authentication exception
whenever every entry is an error object and some entry carries the sentinel
message. -/
theorem scan_sentinel (es : List Json)
    (hobj : ∀ e ∈ es, e.isObj = true)
    (hsent : ∃ e ∈ es, e.lookupField "message" = some (Json.str authSentinel)) :
    scanGraphqlErrors es = .error (.exn (.str "Authentication required")) := by
  induction es with
  | nil => simp at hsent
  | cons e rest ih =>
    have he := hobj e (List.mem_cons_self e rest)
    rcases e with _ | b | n | s | xs | efs <;> simp [Json.isObj] at he
    have hrec := ih (fun y hy => hobj y (List.mem_cons_of_mem _ hy))
    by_cases hm : efs.lookup "message" = some (Json.str authSentinel)
    · simp [scanGraphqlErrors, hm]
    · have hx : ∃ x ∈ rest, x.lookupField "message" = some (Json.str authSentinel) := by
        rcases hsent with ⟨x, hx, hxs⟩
        rcases List.mem_cons.mp hx with rfl | h2
        · exact absurd (by simpa [Json.lookupField] using hxs) hm
        · exact ⟨x, h2, hxs⟩
      have htail := hrec hx
      rcases hl : efs.lookup "message" with _ | v
      · simpa [scanGraphqlErrors, hl] using htail
      · rcases v with _ | b | n | s | vxs | vfs <;>
          simp [scanGraphqlErrors, hl] <;>
          first
            | exact htail
            | exact fun _ => htail

/-- C1, amended: for every response whose HTTP status is below 400 and whose
JSON body is an object carrying a GraphQL errors list of error objects with
some entry whose message equals the auth sentinel, query raises
AuthenticationError.  The claim said this holds regardless of the HTTP
status; the counterexample below shows that raise_for_status takes priority
for statuses of 400 and above, so the body is never scanned there. -/
theorem query_raises_auth_on_sentinel (c : FrankEnergie) (payload : Json)
    (resp : HttpResponse) (hd : List (String × String)) (fs : List (String × Json)) (es : List Json)
    (hh : c._headers = .ok hd)
    (hst : resp.statusCode < 400)
    (hb : resp.body = Json.obj fs)
    (herrs : fs.lookup "errors" = some (Json.arr es))
    (hobj : ∀ e ∈ es, e.isObj = true)
    (hsent : ∃ e ∈ es, e.lookupField "message" = some (Json.str authSentinel)) :
    c.query payload resp = .error (.exn (.str "Authentication required")) := by
  have hscan := scan_sentinel es hobj hsent
  have hes : es.isEmpty = false := by
    rcases hsent with ⟨x, hx, _⟩
    rcases es with _ | _
    · simp at hx
    · simp
  have hrs : raiseForStatus resp.statusCode = false := by
    simp only [raiseForStatus, decide_eq_false_iff_not]
    omega
  unfold FrankEnergie.query FrankEnergie.buildRequest handleResponse
  simp [hh, hb, herrs, hrs, pyOr, hes, hscan]

/-- C1 counterexample: a 401 response whose body carries the sentinel
authentication error raises the transport error of raise_for_status, not
AuthenticationError, refuting the regardless-of-status part of the claim. -/
theorem query_sentinel_ignored_on_http_error :
    FrankEnergie.query (FrankEnergie.init Json.null Json.null) smartBatteriesPayload
        ⟨401, Json.obj [("errors", Json.arr [Json.obj [("message", Json.str authSentinel)]])]⟩
      = .error (.httpError 401)
    ∧ PyErr.httpError 401 ≠ PyErr.exn (Json.str "Authentication required") :=
  ⟨rfl, by intro h; cases h⟩

/-- C1 witness: the amended theorem evaluated on a concrete 200 response
whose errors list carries the sentinel message. -/
theorem query_raises_auth_on_sentinel_witness :
    FrankEnergie.query (FrankEnergie.init Json.null Json.null) smartBatteriesPayload
        ⟨200, Json.obj [("errors", Json.arr [Json.obj [("message", Json.str authSentinel)]])]⟩
      = .error (.exn (.str "Authentication required")) :=
  query_raises_auth_on_sentinel _ _ _ baseHeaders
    [("errors", Json.arr [Json.obj [("message", Json.str authSentinel)]])]
    [Json.obj [("message", Json.str authSentinel)]]
    rfl (by decide) rfl rfl (by decide)
    ⟨Json.obj [("message", Json.str authSentinel)], by simp, rfl⟩

/-- C5: for every HTTP response with a status code of 400 or more (and below
600, the range covered by raise_for_status and by valid HTTP statuses),
query raises TransportError; the body is universally quantified and never
inspected, so no AuthenticationError can arise from such a response. -/
theorem query_transport_error_on_http_status (c : FrankEnergie) (payload : Json)
    (resp : HttpResponse) (hd : List (String × String))
    (hh : c._headers = .ok hd)
    (h4 : 400 ≤ resp.statusCode) (h6 : resp.statusCode < 600) :
    c.query payload resp = .error (.httpError resp.statusCode) := by
  have hrs : raiseForStatus resp.statusCode = true := by
    simp only [raiseForStatus, decide_eq_true_eq]
    omega
  unfold FrankEnergie.query FrankEnergie.buildRequest handleResponse
  simp [hh, hrs]

/-- C5 witness: a 500 response whose body even contains the sentinel error
still raises the transport error. -/
theorem query_transport_error_on_http_status_witness :
    FrankEnergie.query (FrankEnergie.init Json.null Json.null) smartBatteriesPayload
        ⟨500, Json.obj [("errors", Json.arr [Json.obj [("message", Json.str authSentinel)]])]⟩
      = .error (.httpError 500) :=
  query_transport_error_on_http_status _ _ _ baseHeaders rfl (by decide) (by decide)

/-- C3 counterexample: a client constructed with only a refresh token is
unauthenticated (is_authenticated yields false), yet get_smart_batteries
does not raise the local AuthenticationError pre-check: it builds the
request that reaches requests.post.  The pre-check tests credential
presence, not token truthiness. -/
theorem get_batteries_proceeds_when_unauthenticated :
    FrankEnergie.is_authenticated (FrankEnergie.init Json.null (Json.str "R")) = .ok false
    ∧ FrankEnergie.get_smart_batteries_request (FrankEnergie.init Json.null (Json.str "R"))
        = .ok ⟨FrankEnergie.DATA_URL, smartBatteriesPayload, baseHeaders⟩ :=
  ⟨rfl, rfl⟩

/-- C3, amended: whenever no credential is held (the stored auth is falsy,
in particular None), each of the four read operations raises
AuthenticationError before a request is ever built, hence without any
network call. -/
theorem get_requests_require_credential (c : FrankEnergie) (dev : String) (ds de : Date)
    (hc : c.auth.truthy = false) :
    c.get_smart_batteries_request = .error authRequiredError
    ∧ c.get_smart_battery_summary_request dev = .error authRequiredError
    ∧ c.get_smart_battery_request dev = .error authRequiredError
    ∧ c.get_smart_battery_sessions_request dev ds de = .error authRequiredError := by
  refine ⟨?_, ?_, ?_, ?_⟩ <;>
    simp [FrankEnergie.get_smart_batteries_request,
      FrankEnergie.get_smart_battery_summary_request,
      FrankEnergie.get_smart_battery_request,
      FrankEnergie.get_smart_battery_sessions_request, hc]

/-- C3 witness: the amended theorem evaluated on a client with no
credential. -/
theorem get_requests_require_credential_witness :
    FrankEnergie.get_smart_batteries_request (FrankEnergie.init Json.null Json.null)
        = .error authRequiredError
    ∧ FrankEnergie.get_smart_battery_summary_request (FrankEnergie.init Json.null Json.null) "dev"
        = .error authRequiredError
    ∧ FrankEnergie.get_smart_battery_request (FrankEnergie.init Json.null Json.null) "dev"
        = .error authRequiredError
    ∧ FrankEnergie.get_smart_battery_sessions_request (FrankEnergie.init Json.null Json.null)
        "dev" ⟨2024, 1, 1⟩ ⟨2024, 1, 8⟩ = .error authRequiredError :=
  get_requests_require_credential _ "dev" ⟨2024, 1, 1⟩ ⟨2024, 1, 8⟩ rfl

/-- C4: a client constructed with a falsy auth token and a truthy refresh
token reports is_authenticated false, yet every read operation passes the
local pre-check and proceeds to build its network request, whose headers
contain no Authorization entry. -/
theorem empty_auth_token_skips_precheck (a r : Json) (dev : String) (ds de : Date)
    (ha : a.truthy = false) (hr : r.truthy = true) :
    FrankEnergie.is_authenticated (FrankEnergie.init a r) = .ok false
    ∧ (FrankEnergie.init a r)._headers = .ok baseHeaders
    ∧ baseHeaders.lookup "Authorization" = none
    ∧ FrankEnergie.get_smart_batteries_request (FrankEnergie.init a r)
        = .ok ⟨FrankEnergie.DATA_URL, smartBatteriesPayload, baseHeaders⟩
    ∧ FrankEnergie.get_smart_battery_summary_request (FrankEnergie.init a r) dev
        = .ok ⟨FrankEnergie.DATA_URL, smartBatterySummaryPayload dev, baseHeaders⟩
    ∧ FrankEnergie.get_smart_battery_request (FrankEnergie.init a r) dev
        = .ok ⟨FrankEnergie.DATA_URL, smartBatteryPayload dev, baseHeaders⟩
    ∧ FrankEnergie.get_smart_battery_sessions_request (FrankEnergie.init a r) dev ds de
        = .ok ⟨FrankEnergie.DATA_URL, smartBatterySessionsPayload dev ds de, baseHeaders⟩ := by
  have hh : (FrankEnergie.init a r)._headers = .ok baseHeaders := by
    rw [headers_init_eq a r, ha]
    simp
  have hauth : (FrankEnergie.init a r).auth = Json.obj [("authToken", a), ("refreshToken", r)] := by
    simp [FrankEnergie.init, ha, hr]
  refine ⟨?_, hh, by decide, ?_, ?_, ?_, ?_⟩
  · unfold FrankEnergie.is_authenticated
    simp [hauth, List.lookup, pyOr, ha]
  all_goals
    simp only [FrankEnergie.get_smart_batteries_request,
      FrankEnergie.get_smart_battery_summary_request,
      FrankEnergie.get_smart_battery_request,
      FrankEnergie.get_smart_battery_sessions_request,
      FrankEnergie.buildRequest]
    simp [hauth, hh]

/-- C4 witness: the theorem evaluated at a client holding only the refresh
token R. -/
theorem empty_auth_token_skips_precheck_witness :
    FrankEnergie.is_authenticated (FrankEnergie.init Json.null (Json.str "R")) = .ok false
    ∧ (FrankEnergie.init Json.null (Json.str "R"))._headers = .ok baseHeaders
    ∧ baseHeaders.lookup "Authorization" = none
    ∧ FrankEnergie.get_smart_batteries_request (FrankEnergie.init Json.null (Json.str "R"))
        = .ok ⟨FrankEnergie.DATA_URL, smartBatteriesPayload, baseHeaders⟩
    ∧ FrankEnergie.get_smart_battery_summary_request (FrankEnergie.init Json.null (Json.str "R")) "dev"
        = .ok ⟨FrankEnergie.DATA_URL, smartBatterySummaryPayload "dev", baseHeaders⟩
    ∧ FrankEnergie.get_smart_battery_request (FrankEnergie.init Json.null (Json.str "R")) "dev"
        = .ok ⟨FrankEnergie.DATA_URL, smartBatteryPayload "dev", baseHeaders⟩
    ∧ FrankEnergie.get_smart_battery_sessions_request (FrankEnergie.init Json.null (Json.str "R"))
        "dev" ⟨2024, 1, 1⟩ ⟨2024, 1, 8⟩
        = .ok ⟨FrankEnergie.DATA_URL, smartBatterySessionsPayload "dev" ⟨2024, 1, 1⟩ ⟨2024, 1, 8⟩, baseHeaders⟩ :=
  empty_auth_token_skips_precheck Json.null (Json.str "R") "dev" ⟨2024, 1, 1⟩ ⟨2024, 1, 8⟩ rfl rfl

/-- C2: the trading result read by the presentation layer equals
periodTradingResult when that field is not None, else the cumulativeResult
of the last element of the session list when it is non-empty, else None;
including the two concrete instances of the claim (15 from the last of two
sessions under a null aggregate, and 42 when the aggregate is present). -/
theorem trading_result_state_correct (dev : String) (sm p : Json) (ss : List Json) :
    (p ≠ Json.null →
      FrankBatteryTradingResultSensor.state ⟨dev, sm, sessionWindow p ss⟩ = .ok p)
    ∧ (p = Json.null → ss = [] →
      FrankBatteryTradingResultSensor.state ⟨dev, sm, sessionWindow p ss⟩ = .ok Json.null)
    ∧ (p = Json.null → ∀ l v, ss.getLast? = some l → pyGet l "cumulativeResult" = .ok v →
      FrankBatteryTradingResultSensor.state ⟨dev, sm, sessionWindow p ss⟩ = .ok v)
    ∧ FrankBatteryTradingResultSensor.state ⟨dev, sm, sessionWindow Json.null
        [Json.obj [("date", Json.str "2024-01-01"), ("cumulativeResult", Json.num 10)],
         Json.obj [("date", Json.str "2024-01-02"), ("cumulativeResult", Json.num 15)]]⟩
      = .ok (Json.num 15)
    ∧ FrankBatteryTradingResultSensor.state ⟨dev, sm, sessionWindow (Json.num 42)
        [Json.obj [("date", Json.str "2024-01-01"), ("cumulativeResult", Json.num 10)]]⟩
      = .ok (Json.num 42) := by
  refine ⟨?_, ?_, ?_, rfl, rfl⟩
  · intro hp
    unfold FrankBatteryTradingResultSensor.state
    rcases p with _ | b | n | s | xs | fs <;>
      simp_all [sessionWindow, pyOr, pySubscript, List.lookup]
  · rintro rfl rfl
    rfl
  · rintro rfl l v hl hv
    unfold FrankBatteryTradingResultSensor.state
    have hne : ss.isEmpty = false := by
      rcases ss with _ | _
      · simp at hl
      · simp
    simp [sessionWindow, pyOr, List.lookup, hne, pyIndexLast, hl, hv]

/-- C2 witness: the first concrete instance, read off the general theorem. -/
theorem trading_result_state_correct_witness :
    FrankBatteryTradingResultSensor.state ⟨"dev", Json.null, sessionWindow Json.null
        [Json.obj [("date", Json.str "2024-01-01"), ("cumulativeResult", Json.num 10)],
         Json.obj [("date", Json.str "2024-01-02"), ("cumulativeResult", Json.num 15)]]⟩
      = .ok (Json.num 15) :=
  ((trading_result_state_correct "dev" Json.null Json.null []).2.2.2).1

/-- C7: when the sessions response lacks the smartBatterySessions node (its
extraction yields a falsy value without raising), the refresh step completes
without raising, stores None as the session window, and records the
diagnostic warning. -/
theorem update_missing_sessions_node (st : FrankBatteryCoordinator)
    (sResp xResp s0 sv n0 nv : Json)
    (hs0 : pyGet (pyOr sResp (Json.obj [])) "data" = .ok s0)
    (hs1 : pyGet (pyOr s0 (Json.obj [])) "smartBatterySummary" = .ok sv)
    (hn0 : pyGet (pyOr xResp (Json.obj [])) "data" = .ok n0)
    (hn1 : pyGet (pyOr n0 (Json.obj [])) "smartBatterySessions" = .ok nv)
    (hnv : nv.truthy = false) :
    st._async_update_data sResp xResp
      = ({ st with summary := sv, sessions_node := Json.null }, .ok true) := by
  unfold FrankBatteryCoordinator._async_update_data
  simp [hs0, hs1, hn0, hn1, hnv]

/-- C7 witness: a concrete response whose data object has no
smartBatterySessions key. -/
theorem update_missing_sessions_node_witness :
    FrankBatteryCoordinator._async_update_data ⟨"dev", Json.num 1, Json.num 2⟩
        (Json.obj [("data", Json.obj [("smartBatterySummary", Json.obj [("totalResult", Json.num 5)])])])
        (Json.obj [("data", Json.obj [])])
      = (⟨"dev", Json.obj [("totalResult", Json.num 5)], Json.null⟩, .ok true) :=
  update_missing_sessions_node ⟨"dev", Json.num 1, Json.num 2⟩ _ _
    (Json.obj [("smartBatterySummary", Json.obj [("totalResult", Json.num 5)])])
    (Json.obj [("totalResult", Json.num 5)])
    (Json.obj []) Json.null rfl rfl rfl rfl rfl

/-- C8: whenever the summary extraction succeeds with value sv, the stored
summary snapshot after the refresh step equals sv exactly, whatever the
previous state was (sv does not depend on it), and on every successful poll
the new summary is sv; with a response lacking the nested node the
extraction succeeds with None, so the snapshot becomes absent without an
error, as the witness shows. -/
theorem update_replaces_summary (st : FrankBatteryCoordinator)
    (sResp xResp s0 sv : Json)
    (hs0 : pyGet (pyOr sResp (Json.obj [])) "data" = .ok s0)
    (hs1 : pyGet (pyOr s0 (Json.obj [])) "smartBatterySummary" = .ok sv) :
    ((st._async_update_data sResp xResp).1.summary = sv)
    ∧ (∀ (r : FrankBatteryCoordinator) (w : Bool),
        st._async_update_data sResp xResp = (r, .ok w) → r.summary = sv) := by
  have key : (st._async_update_data sResp xResp).1.summary = sv := by
    unfold FrankBatteryCoordinator._async_update_data
    simp only [hs0, exBindOk, hs1]
    rcases hnode : (do
        let n0 ← pyGet (pyOr xResp (Json.obj [])) "data"
        pyGet (pyOr n0 (Json.obj [])) "smartBatterySessions" : Except PyErr Json) with e | node
    · simp [hnode]
    · simp only [hnode]
      split
      · simp
      · split <;> simp
  refine ⟨key, ?_⟩
  intro r w hr
  have : (st._async_update_data sResp xResp).1 = r := by rw [hr]
  rw [← this, key]

/-- C8 witness: a summary payload lacking the nested node makes the stored
snapshot None without raising. -/
theorem update_replaces_summary_witness :
    ((FrankBatteryCoordinator._async_update_data ⟨"dev", Json.num 1, Json.num 2⟩
        (Json.obj []) (Json.obj [("data", Json.obj [])])).1.summary = Json.null)
    ∧ (∀ (r : FrankBatteryCoordinator) (w : Bool),
        FrankBatteryCoordinator._async_update_data ⟨"dev", Json.num 1, Json.num 2⟩
          (Json.obj []) (Json.obj [("data", Json.obj [])]) = (r, .ok w) → r.summary = Json.null) :=
  update_replaces_summary ⟨"dev", Json.num 1, Json.num 2⟩ (Json.obj [])
    (Json.obj [("data", Json.obj [])]) Json.null Json.null rfl rfl

/-- C9: a login response carrying authToken and refreshToken replaces the
held credential entirely with that node, returns it, and makes
is_authenticated true afterwards (for a non-empty token). -/
theorem login_success_sets_credential (a r : Json) (u p t rt : String)
    (ht : t ≠ "") :
    FrankEnergie.login (FrankEnergie.init a r) u p
        ⟨200, Json.obj [("data", Json.obj [("login",
          Json.obj [("authToken", Json.str t), ("refreshToken", Json.str rt)])])]⟩
      = ({ auth := Json.obj [("authToken", Json.str t), ("refreshToken", Json.str rt)] },
         .ok (Json.obj [("authToken", Json.str t), ("refreshToken", Json.str rt)]))
    ∧ FrankEnergie.is_authenticated
        { auth := Json.obj [("authToken", Json.str t), ("refreshToken", Json.str rt)] }
      = .ok true := by
  obtain ⟨hd, hh⟩ : ∃ hd, (FrankEnergie.init a r)._headers = .ok hd :=
    ⟨_, headers_init_eq a r⟩
  constructor
  · unfold FrankEnergie.login FrankEnergie.query FrankEnergie.buildRequest handleResponse
      FrankEnergie.loginCheck
    simp [hh, raiseForStatus, pyContains, pySubscript, List.lookup]
  · unfold FrankEnergie.is_authenticated
    simp [List.lookup, pyOr, ht]

/-- C9 witness: the theorem at the concrete tokens T and R. -/
theorem login_success_sets_credential_witness :
    FrankEnergie.login (FrankEnergie.init Json.null Json.null) "u" "p"
        ⟨200, Json.obj [("data", Json.obj [("login",
          Json.obj [("authToken", Json.str "T"), ("refreshToken", Json.str "R")])])]⟩
      = ({ auth := Json.obj [("authToken", Json.str "T"), ("refreshToken", Json.str "R")] },
         .ok (Json.obj [("authToken", Json.str "T"), ("refreshToken", Json.str "R")]))
    ∧ FrankEnergie.is_authenticated
        { auth := Json.obj [("authToken", Json.str "T"), ("refreshToken", Json.str "R")] }
      = .ok true :=
  login_success_sets_credential Json.null Json.null "u" "p" "T" "R" (by decide)

/-- Helper: the GraphQL error scan succeeds when every entry is an error
object whose message is not the sentinel. -/
theorem scan_no_sentinel (es : List Json)
    (h : ∀ e ∈ es, ∃ efs, e = Json.obj efs ∧
      efs.lookup "message" ≠ some (Json.str authSentinel)) :
    scanGraphqlErrors es = .ok () := by
  induction es with
  | nil => rfl
  | cons e rest ih =>
    obtain ⟨efs, rfl, hne⟩ := h e (List.mem_cons_self e rest)
    have htail := ih (fun y hy => h y (List.mem_cons_of_mem _ hy))
    rcases hl : efs.lookup "message" with _ | v
    · simpa [scanGraphqlErrors, hl] using htail
    · rcases v with _ | b | n | s | vxs | vfs
      · simpa [scanGraphqlErrors, hl] using htail
      · simpa [scanGraphqlErrors, hl] using htail
      · simpa [scanGraphqlErrors, hl] using htail
      · have hs : s ≠ authSentinel := fun hsv => hne (by rw [hl, hsv])
        simpa [scanGraphqlErrors, hl, hs] using htail
      · simpa [scanGraphqlErrors, hl] using htail
      · simpa [scanGraphqlErrors, hl] using htail

/-- Helper: a response below status 400 whose body is an object without a
sentinel auth error is returned unchanged by the response handling of
query. -/
theorem handleResponse_ok_no_sentinel (resp : HttpResponse) (fs : List (String × Json))
    (hst : resp.statusCode < 400) (hb : resp.body = Json.obj fs)
    (herrs : fs.lookup "errors" = none ∨
      ∃ es, fs.lookup "errors" = some (Json.arr es) ∧
        ∀ e ∈ es, ∃ efs, e = Json.obj efs ∧
          efs.lookup "message" ≠ some (Json.str authSentinel)) :
    handleResponse resp = .ok (Json.obj fs) := by
  have hrs : raiseForStatus resp.statusCode = false := by
    simp only [raiseForStatus, decide_eq_false_iff_not]
    omega
  unfold handleResponse
  rcases herrs with hnone | ⟨es, hsome, hno⟩
  · simp [hrs, hb, hnone]
  · have hscan := scan_no_sentinel es hno
    rcases es with _ | ⟨e, tl⟩
    · simp [hrs, hb, hsome, pyOr, scanGraphqlErrors]
    · simp [hrs, hb, hsome, pyOr, hscan]

/-- Helper: the login validation raises the expected failure message on
every object body without a usable login payload. -/
theorem loginCheck_failure (fs : List (String × Json))
    (herrs : fs.lookup "errors" = none ∨
      ∃ es, fs.lookup "errors" = some (Json.arr es) ∧
        ∀ e ∈ es, ∃ efs, e = Json.obj efs ∧
          efs.lookup "message" ≠ some (Json.str authSentinel))
    (hdata : fs.lookup "data" = none ∨
      ∃ ds, fs.lookup "data" = some (Json.obj ds) ∧
        ((ds.lookup "login").getD Json.null).truthy = false) :
    FrankEnergie.loginCheck (Json.obj fs) = .error (.exn (expectedLoginFailure fs)) := by
  unfold FrankEnergie.loginCheck
  by_cases hfs : fs.isEmpty
  · rcases fs with _ | _
    · simp [expectedLoginFailure]
    · simp at hfs
  · have hfs' : fs.isEmpty = false := by simpa using hfs
    rcases hdata with hdnone | ⟨ds, hdsome, hlf⟩ <;>
      rcases herrs with henone | ⟨es, hesome, hno⟩
    · simp [hfs', pyContains, hdnone, henone, expectedLoginFailure]
    · rcases es with _ | ⟨e, tl⟩
      · simp [hfs', pyContains, hdnone, hesome, expectedLoginFailure]
      · obtain ⟨efs, rfl, -⟩ := hno e (List.mem_cons_self e tl)
        simp [hfs', pyContains, hdnone, hesome, expectedLoginFailure, pyIndex0, pyGetD]
    · simp [hfs', pyContains, hdsome, pySubscript, hlf, henone, expectedLoginFailure]
    · rcases es with _ | ⟨e, tl⟩
      · simp [hfs', pyContains, hdsome, pySubscript, hlf, hesome, expectedLoginFailure]
      · obtain ⟨efs, rfl, -⟩ := hno e (List.mem_cons_self e tl)
        simp [hfs', pyContains, hdsome, pySubscript, hlf, hesome, expectedLoginFailure,
          pyIndex0, pyGetD]
/-- C6, amended: for every no-login-payload response that passes the
transport and sentinel checks of query (status below 400, errors entries
that are objects without the sentinel message, and a data field that is
either absent or an object with a falsy login field), login raises an
exception carrying the first reported error message (default message when
the first error object has none) or the generic empty-response message when
no errors are reported, and the held credential is unchanged.  The
counterexample shows the original claim fails when the errors list carries
the auth sentinel: query then raises Authentication required instead of the
first reported message. -/
theorem login_failure_message_and_state (c : FrankEnergie) (u p : String)
    (resp : HttpResponse) (hd : List (String × String)) (fs : List (String × Json))
    (hh : c._headers = .ok hd)
    (hst : resp.statusCode < 400)
    (hb : resp.body = Json.obj fs)
    (herrs : fs.lookup "errors" = none ∨
      ∃ es, fs.lookup "errors" = some (Json.arr es) ∧
        ∀ e ∈ es, ∃ efs, e = Json.obj efs ∧
          efs.lookup "message" ≠ some (Json.str authSentinel))
    (hdata : fs.lookup "data" = none ∨
      ∃ ds, fs.lookup "data" = some (Json.obj ds) ∧
        ((ds.lookup "login").getD Json.null).truthy = false) :
    c.login u p resp = (c, .error (.exn (expectedLoginFailure fs))) := by
  have hq : c.query (FrankEnergie.loginPayload u p) resp = .ok (Json.obj fs) := by
    unfold FrankEnergie.query FrankEnergie.buildRequest
    simp [hh, handleResponse_ok_no_sentinel resp fs hst hb herrs]
  have hchk := loginCheck_failure fs herrs hdata
  unfold FrankEnergie.login
  simp [hq, hchk]

/-- C6 counterexample: when the only reported error message is the auth
sentinel, the raised error carries Authentication required, which differs
from the first reported message, refuting the claim as stated; the held
credential is still unchanged. -/
theorem login_sentinel_error_message_mismatch :
    FrankEnergie.login (FrankEnergie.init Json.null Json.null) "u" "p"
        ⟨200, Json.obj [("errors", Json.arr [Json.obj [("message", Json.str authSentinel)]])]⟩
      = (FrankEnergie.init Json.null Json.null, .error (.exn (.str "Authentication required")))
    ∧ "Authentication required" ≠ authSentinel :=
  ⟨rfl, by decide⟩

/-- C6 witness: the amended theorem evaluated on the bad creds response of
the claim. -/
theorem login_failure_message_and_state_witness :
    FrankEnergie.login (FrankEnergie.init Json.null Json.null) "u" "p"
        ⟨200, Json.obj [("errors", Json.arr [Json.obj [("message", Json.str "bad creds")]])]⟩
      = (FrankEnergie.init Json.null Json.null, .error (.exn (.str "bad creds"))) :=
  login_failure_message_and_state (FrankEnergie.init Json.null Json.null) "u" "p"
    ⟨200, Json.obj [("errors", Json.arr [Json.obj [("message", Json.str "bad creds")]])]⟩
    baseHeaders
    [("errors", Json.arr [Json.obj [("message", Json.str "bad creds")]])]
    rfl (by decide) rfl
    (Or.inr ⟨[Json.obj [("message", Json.str "bad creds")]], rfl, by
      intro e he
      simp at he
      exact ⟨[("message", Json.str "bad creds")], he, by simp [authSentinel]⟩⟩)
    (Or.inl rfl)

/-- Helper: the digit table produces digit characters. -/
theorem digitChar_isDigit : ∀ n < 10, (digitChar n).isDigit = true := by decide

/-- Helper: reading a digit character back gives the digit. -/
theorem digitVal_digitChar : ∀ n < 10, digitVal (digitChar n) = n := by decide

/-- Helper: every strftime rendering has the YYYY-MM-DD shape. -/
theorem strftime_form (d : Date) : isYmdForm d.strftimeYmd = true := by
  have t : ∀ x : Nat, x % 10 < 10 := fun x => Nat.mod_lt _ (by norm_num)
  simp [Date.strftimeYmd, isYmdForm,
    digitChar_isDigit _ (t (d.year / 1000)), digitChar_isDigit _ (t (d.year / 100)),
    digitChar_isDigit _ (t (d.year / 10)), digitChar_isDigit _ (t d.year),
    digitChar_isDigit _ (t (d.month / 10)), digitChar_isDigit _ (t d.month),
    digitChar_isDigit _ (t (d.day / 10)), digitChar_isDigit _ (t d.day)]

/-- Helper: parsing the strftime rendering of a valid date returns the
date. -/
theorem strftime_parse (d : Date) (h : validDate d) : parseYmd d.strftimeYmd = some d := by
  rcases d with ⟨y, m, dd⟩
  obtain ⟨h1, h2, h3, h4, h5, h6⟩ := h
  dsimp only at h1 h2 h3 h4 h5 h6
  have t : ∀ x : Nat, x % 10 < 10 := fun x => Nat.mod_lt _ (by norm_num)
  simp [Date.strftimeYmd, parseYmd,
    digitChar_isDigit _ (t (y / 1000)), digitChar_isDigit _ (t (y / 100)),
    digitChar_isDigit _ (t (y / 10)), digitChar_isDigit _ (t y),
    digitChar_isDigit _ (t (m / 10)), digitChar_isDigit _ (t m),
    digitChar_isDigit _ (t (dd / 10)), digitChar_isDigit _ (t dd),
    digitVal_digitChar _ (t (y / 1000)), digitVal_digitChar _ (t (y / 100)),
    digitVal_digitChar _ (t (y / 10)), digitVal_digitChar _ (t y),
    digitVal_digitChar _ (t (m / 10)), digitVal_digitChar _ (t m),
    digitVal_digitChar _ (t (dd / 10)), digitVal_digitChar _ (t dd)]
  refine ⟨?_, ?_, ?_⟩ <;> omega

/-- C10: the startDate and endDate arguments of the sessions query are the
strftime renderings of the two dates; for every valid date that rendering
has the YYYY-MM-DD shape and parses back to the same date, and the date
2024-03-05 is serialized exactly as the string 2024-03-05. -/
theorem sessions_date_serialization (dev : String) (ds de : Date)
    (hs : validDate ds) (he : validDate de) :
    (smartBatterySessionsPayload dev ds de).lookupField "variables"
        = some (Json.obj
          [("deviceId", Json.str dev),
           ("startDate", Json.str ds.strftimeYmd),
           ("endDate", Json.str de.strftimeYmd)])
    ∧ isYmdForm ds.strftimeYmd = true
    ∧ isYmdForm de.strftimeYmd = true
    ∧ parseYmd ds.strftimeYmd = some ds
    ∧ parseYmd de.strftimeYmd = some de
    ∧ Date.strftimeYmd ⟨2024, 3, 5⟩ = "2024-03-05" := by
  refine ⟨?_, strftime_form ds, strftime_form de, strftime_parse ds hs, strftime_parse de he, ?_⟩
  · simp [smartBatterySessionsPayload, Json.lookupField, List.lookup]
  · decide

/-- C10 witness: the theorem at the dates 2024-03-05 and 2024-03-12. -/
theorem sessions_date_serialization_witness :
    (smartBatterySessionsPayload "dev" ⟨2024, 3, 5⟩ ⟨2024, 3, 12⟩).lookupField "variables"
        = some (Json.obj
          [("deviceId", Json.str "dev"),
           ("startDate", Json.str (Date.strftimeYmd ⟨2024, 3, 5⟩)),
           ("endDate", Json.str (Date.strftimeYmd ⟨2024, 3, 12⟩))])
    ∧ isYmdForm (Date.strftimeYmd ⟨2024, 3, 5⟩) = true
    ∧ isYmdForm (Date.strftimeYmd ⟨2024, 3, 12⟩) = true
    ∧ parseYmd (Date.strftimeYmd ⟨2024, 3, 5⟩) = some ⟨2024, 3, 5⟩
    ∧ parseYmd (Date.strftimeYmd ⟨2024, 3, 12⟩) = some ⟨2024, 3, 12⟩
    ∧ Date.strftimeYmd ⟨2024, 3, 5⟩ = "2024-03-05" :=
  sessions_date_serialization "dev" ⟨2024, 3, 5⟩ ⟨2024, 3, 12⟩ (by decide) (by decide)
